import Mathlib

/-!
# Verification of the quota-aware key-rotation subsystem

Shallow embedding of `TokenUsageTracker` (source file `tokenUsageTracker.ts`,
provided as `src/unnamed/part_002`) and of the key-rotation controller
described by the spec and exercised by `keyRotation.test.ts`.

Modelling conventions:
* JavaScript numbers are modelled as exact rationals `ℚ` (no floating-point
  rounding, no `NaN`/`Infinity`; every representable value is finite).
* The persisted usage store `Record<string, Record<string, KeyUsageData>>`
  is modelled as an insertion-ordered association list, matching JavaScript
  object-key semantics for the operations the tracker performs.
* JavaScript truthiness of an optional numeric field (`limits.tokensPerDay`,
  `keyData.lastDailyReset`, ...) is `qTruthy`: present and nonzero.
* `Date.now()` is passed explicitly as a `now : ℚ` parameter.
-/

/-- `TokenUsageEntry` from `tokenUsageTracker.ts`: one recorded usage event. -/
structure TokenUsageEntry where
  timestamp : ℚ
  tokens : ℚ
deriving DecidableEq, Repr

/-- `KeyUsageData` from `tokenUsageTracker.ts`: a provider's ledger record. -/
structure KeyUsageData where
  usage : List TokenUsageEntry
  lastDailyReset : Option ℚ
  lastMonthlyReset : Option ℚ
  lastHourlyReset : Option ℚ
deriving DecidableEq, Repr

/-- `TokenUsageStats` from `tokenUsageTracker.ts`: the derived statistics. -/
structure TokenUsageStats where
  hourlyUsage : ℚ
  dailyUsage : ℚ
  monthlyUsage : ℚ
  hourlyLimit : Option ℚ
  dailyLimit : Option ℚ
  monthlyLimit : Option ℚ
  hourlyUtilization : ℚ
  dailyUtilization : ℚ
  monthlyUtilization : ℚ
deriving DecidableEq, Repr

/-- `ProviderLimits` from `voidSettingsTypes.ts` (fields as used by the
tracker and by `apiServerService.ts`); every field is optional. -/
structure ProviderLimits where
  tokensPerHour : Option ℚ := none
  tokensPerDay : Option ℚ := none
  maxTokensTotal : Option ℚ := none
  proactiveThreshold : Option ℚ := none
deriving DecidableEq, Repr

/-- Inner record of the persisted store: key-index (as string) to ledger. -/
abbrev ProviderData := List (String × KeyUsageData)

/-- The persisted usage store: provider name to per-key ledgers, modelling
`Record<string, Record<string, KeyUsageData>>`. -/
abbrev UsageStore := List (String × ProviderData)

/-- JavaScript truthiness of an optional number: present and nonzero. -/
def qTruthy (x : Option ℚ) : Bool :=
  match x with
  | none => false
  | some v => v != 0

/-- Numeric value of an optional number (only meaningful when truthy). -/
def qVal (x : Option ℚ) : ℚ := x.getD 0

/-- Object-property read: `obj[key]`, `undefined` as `none`. -/
def getAssoc {β : Type} : List (String × β) → String → Option β
  | [], _ => none
  | (k, v) :: rest, key => if k = key then some v else getAssoc rest key

/-- Object-property write: `obj[key] = v`, preserving insertion order. -/
def setAssoc {β : Type} : List (String × β) → String → β → List (String × β)
  | [], key, v => [(key, v)]
  | (k, w) :: rest, key, v =>
      if k = key then (key, v) :: rest else (k, w) :: setAssoc rest key v

/-- Read `data[provider][keyIndex]`, `none` when either level is absent. -/
def getKey (store : UsageStore) (provider keyIndex : String) : Option KeyUsageData :=
  match getAssoc store provider with
  | none => none
  | some pd => getAssoc pd keyIndex

/-- Write `data[provider][keyIndex] = kd`, creating the provider object when
absent (as `data[provider] = data[provider] || {}` does). -/
def setKey (store : UsageStore) (provider keyIndex : String) (kd : KeyUsageData) : UsageStore :=
  setAssoc store provider (setAssoc ((getAssoc store provider).getD []) keyIndex kd)

/-- `CLEANUP_INTERVAL` / the one-hour window, in milliseconds. -/
def oneHourMs : ℚ := 60 * 60 * 1000

/-- The 24-hour window, in milliseconds. -/
def oneDayMs : ℚ := 24 * 60 * 60 * 1000

/-- The 30-day window, in milliseconds. -/
def thirtyDaysMs : ℚ := 30 * 24 * 60 * 60 * 1000

/-- `PROACTIVE_ROTATION_THRESHOLD` from `tokenUsageTracker.ts` (80%). -/
def PROACTIVE_ROTATION_THRESHOLD : ℚ := 0.8

/-- `calculateUsageInWindow` from `tokenUsageTracker.ts`: filters entries with
`entry.timestamp >= currentTime - windowMs` and sums their tokens. -/
def calculateUsageInWindow (usage : List TokenUsageEntry) (currentTime windowMs : ℚ) : ℚ :=
  ((usage.filter (fun e => decide (currentTime - windowMs ≤ e.timestamp))).foldl
    (fun total e => total + e.tokens) 0)

/-- `initializeResetTimestamps` from `tokenUsageTracker.ts`: fills in any
falsy reset timestamp with the current time. -/
def initializeResetTimestamps (kd : KeyUsageData) (now : ℚ) : KeyUsageData :=
  { kd with
    lastDailyReset := if qTruthy kd.lastDailyReset then kd.lastDailyReset else some now
    lastMonthlyReset := if qTruthy kd.lastMonthlyReset then kd.lastMonthlyReset else some now
    lastHourlyReset := if qTruthy kd.lastHourlyReset then kd.lastHourlyReset else some now }

/-- Daily branch of `autoResetCounters`: if a daily limit and a last-daily
reset timestamp are truthy and at least 24h have passed, drop entries older
than 24h and stamp the reset time. -/
def dailyResetStep (limits : ProviderLimits) (now : ℚ) (kd : KeyUsageData) : KeyUsageData :=
  if qTruthy limits.tokensPerDay && qTruthy kd.lastDailyReset &&
      decide (oneDayMs ≤ now - qVal kd.lastDailyReset) then
    { kd with
      usage := kd.usage.filter (fun e => decide (now - e.timestamp < oneDayMs))
      lastDailyReset := some now }
  else kd

/-- Monthly branch of `autoResetCounters` (keyed on `maxTokensTotal`, 30 days). -/
def monthlyResetStep (limits : ProviderLimits) (now : ℚ) (kd : KeyUsageData) : KeyUsageData :=
  if qTruthy limits.maxTokensTotal && qTruthy kd.lastMonthlyReset &&
      decide (thirtyDaysMs ≤ now - qVal kd.lastMonthlyReset) then
    { kd with
      usage := kd.usage.filter (fun e => decide (now - e.timestamp < thirtyDaysMs))
      lastMonthlyReset := some now }
  else kd

/-- Hourly branch of `autoResetCounters` (keyed on `tokensPerHour`, 1 hour). -/
def hourlyResetStep (limits : ProviderLimits) (now : ℚ) (kd : KeyUsageData) : KeyUsageData :=
  if qTruthy limits.tokensPerHour && qTruthy kd.lastHourlyReset &&
      decide (oneHourMs ≤ now - qVal kd.lastHourlyReset) then
    { kd with
      usage := kd.usage.filter (fun e => decide (now - e.timestamp < oneHourMs))
      lastHourlyReset := some now }
  else kd

/-- The three reset branches of `autoResetCounters` in source order
(daily, then monthly, then hourly), applied to one ledger record. -/
def resetSteps (limits : ProviderLimits) (now : ℚ) (kd : KeyUsageData) : KeyUsageData :=
  hourlyResetStep limits now (monthlyResetStep limits now (dailyResetStep limits now kd))

/-- `autoResetCounters` from `tokenUsageTracker.ts`: no-op when the provider
has no `'0'` ledger record; otherwise applies the three reset branches to it
and persists the result. -/
def autoResetCounters (store : UsageStore) (providerName : String)
    (limits : ProviderLimits) (now : ℚ) : UsageStore :=
  match getKey store providerName "0" with
  | none => store
  | some kd => setKey store providerName "0" (resetSteps limits now kd)

/-- `recordUsage` from `tokenUsageTracker.ts`: rejects a falsy provider name
or a negative token count (returning the store unchanged; `NaN`/`Infinity`
are not representable in `ℚ`), otherwise creates the `'0'` ledger record if
needed, fills in missing reset timestamps, and appends one entry. -/
def recordUsage (store : UsageStore) (providerName : String)
    (tokensUsed : ℚ) (now : ℚ) : UsageStore :=
  if providerName = "" then store
  else if tokensUsed < 0 then store
  else
    let kd0 : KeyUsageData :=
      match getKey store providerName "0" with
      | some kd => kd
      | none =>
          { usage := []
            lastDailyReset := some now
            lastMonthlyReset := some now
            lastHourlyReset := some now }
    let kd1 := initializeResetTimestamps kd0 now
    let kd2 := { kd1 with usage := kd1.usage ++ [{ timestamp := now, tokens := tokensUsed }] }
    setKey store providerName "0" kd2

/-- The threshold comparison at the end of `shouldRotateProactively`:
per-window utilizations (`limits.x ? usage / limits.x : 0`), their maximum
(`Math.max`), and the `>= threshold` decision. -/
def rotateDecision (kd : KeyUsageData) (limits : ProviderLimits) (now : ℚ) : Bool :=
  let hourlyUsage := calculateUsageInWindow kd.usage now oneHourMs
  let dailyUsage := calculateUsageInWindow kd.usage now oneDayMs
  let monthlyUsage := calculateUsageInWindow kd.usage now thirtyDaysMs
  let hourlyThreshold := if qTruthy limits.tokensPerHour then hourlyUsage / qVal limits.tokensPerHour else 0
  let dailyThreshold := if qTruthy limits.tokensPerDay then dailyUsage / qVal limits.tokensPerDay else 0
  let monthlyThreshold := if qTruthy limits.maxTokensTotal then monthlyUsage / qVal limits.maxTokensTotal else 0
  decide (PROACTIVE_ROTATION_THRESHOLD ≤ max (max hourlyThreshold dailyThreshold) monthlyThreshold)

/-- `shouldRotateProactively` from `tokenUsageTracker.ts`: rejects a falsy
provider name, runs `autoResetCounters`, returns `false` when the provider
has no `'0'` ledger record, otherwise compares the maximum per-window
utilization against `PROACTIVE_ROTATION_THRESHOLD`. -/
def shouldRotateProactively (store : UsageStore) (providerName : String)
    (limits : ProviderLimits) (now : ℚ) : Bool :=
  if providerName = "" then false
  else
    let store1 := autoResetCounters store providerName limits now
    match getKey store1 providerName "0" with
    | none => false
    | some kd => rotateDecision kd limits now

/-- The statistics record built at the end of `getUsageStats`. -/
def statsOf (kd : KeyUsageData) (limits : ProviderLimits) (now : ℚ) : TokenUsageStats :=
  let hourlyUsage := calculateUsageInWindow kd.usage now oneHourMs
  let dailyUsage := calculateUsageInWindow kd.usage now oneDayMs
  let monthlyUsage := calculateUsageInWindow kd.usage now thirtyDaysMs
  { hourlyUsage := hourlyUsage
    dailyUsage := dailyUsage
    monthlyUsage := monthlyUsage
    hourlyLimit := limits.tokensPerHour
    dailyLimit := limits.tokensPerDay
    monthlyLimit := limits.maxTokensTotal
    hourlyUtilization := if qTruthy limits.tokensPerHour then hourlyUsage / qVal limits.tokensPerHour else 0
    dailyUtilization := if qTruthy limits.tokensPerDay then dailyUsage / qVal limits.tokensPerDay else 0
    monthlyUtilization := if qTruthy limits.maxTokensTotal then monthlyUsage / qVal limits.maxTokensTotal else 0 }

/-- `getUsageStats` from `tokenUsageTracker.ts`: rejects a falsy provider
name, runs `autoResetCounters`, returns `null` when the provider has no `'0'`
ledger record, otherwise the derived statistics. -/
def getUsageStats (store : UsageStore) (providerName : String)
    (limits : ProviderLimits) (now : ℚ) : Option TokenUsageStats :=
  if providerName = "" then none
  else
    let store1 := autoResetCounters store providerName limits now
    match getKey store1 providerName "0" with
    | none => none
    | some kd => some (statsOf kd limits now)

/-- `resetUsage` from `tokenUsageTracker.ts`: when the provider has a `'0'`
ledger record, replaces it with an empty entry list and fresh reset
timestamps; otherwise leaves the store unchanged. -/
def resetUsage (store : UsageStore) (providerName : String) (now : ℚ) : UsageStore :=
  if providerName = "" then store
  else
    match getKey store providerName "0" with
    | some _ =>
        setKey store providerName "0"
          { usage := []
            lastDailyReset := some now
            lastMonthlyReset := some now
            lastHourlyReset := some now }
    | none => store

/-- `clearAllUsage` from `tokenUsageTracker.ts`: removes the persisted store
record entirely, so a subsequent load sees an empty store. -/
def clearAllUsage (_store : UsageStore) : UsageStore := []

/-- Utilization as the spec words it: recorded usage divided by the
configured limit, `0` when the limit is absent. -/
def utilizationSpec (usage : ℚ) : Option ℚ → ℚ
  | none => 0
  | some v => usage / v

/-- Windowed usage as the spec words it: the sum of `tokens` over entries
with `timestamp ∈ [now - windowMs, now]` (both bounds included). -/
def usageInWindowSpec (usage : List TokenUsageEntry) (now windowMs : ℚ) : ℚ :=
  ((usage.filter (fun e => decide (now - windowMs ≤ e.timestamp) &&
      decide (e.timestamp ≤ now))).foldl (fun total e => total + e.tokens) 0)

/-- Spec-modelled rotation state (spec §3 `RotationState`): the ordered API
keys of a provider and the index of the active one. -/
structure RotationState where
  apiKeys : List String
  currentKeyIndex : Nat
deriving DecidableEq, Repr

/-- Modelled from the spec: `rotateToNextApiKey` (the RotationController
transition `advance`) lives in `voidSettingsService.ts`, which is not among
the provided source files — only its test `keyRotation.test.ts` and its
callers are. Spec §4.4: if `index + 1 < len(apiKeys)` the index advances by
one and the call reports success; otherwise it reports exhausted and leaves
the index unchanged (no wrap-around), and a provider with zero or one keys
always reports failure. -/
def advance (s : RotationState) : Bool × RotationState :=
  if s.currentKeyIndex + 1 < s.apiKeys.length then
    (true, { s with currentKeyIndex := s.currentKeyIndex + 1 })
  else (false, s)

/-- `k` successive `advance` calls from state `s`. -/
def advanceIter (s : RotationState) : Nat → RotationState
  | 0 => s
  | n + 1 => (advance (advanceIter s n)).2

theorem getAssoc_setAssoc_self {β : Type} (l : List (String × β)) (key : String) (v : β) :
    getAssoc (setAssoc l key v) key = some v := by
  induction l with
  | nil => simp [setAssoc, getAssoc]
  | cons kv rest ih =>
    obtain ⟨k, w⟩ := kv
    by_cases h : k = key
    · simp [setAssoc, h, getAssoc]
    · simp [setAssoc, h, getAssoc, ih]

theorem getAssoc_setAssoc_ne {β : Type} (l : List (String × β)) (key key' : String) (v : β)
    (h : key' ≠ key) : getAssoc (setAssoc l key v) key' = getAssoc l key' := by
  induction l with
  | nil =>
    simp only [setAssoc, getAssoc]
    rw [if_neg (fun hc => h hc.symm)]
  | cons kv rest ih =>
    obtain ⟨k, w⟩ := kv
    by_cases hk : k = key
    · subst hk
      simp only [setAssoc, if_pos rfl, getAssoc]
      rw [if_neg (fun hc => h hc.symm), if_neg (fun hc => h hc.symm)]
    · simp only [setAssoc, if_neg hk, getAssoc, ih]

theorem getKey_setKey_self (store : UsageStore) (p k : String) (kd : KeyUsageData) :
    getKey (setKey store p k kd) p k = some kd := by
  simp [getKey, setKey, getAssoc_setAssoc_self]

theorem getKey_setKey_ne_provider (store : UsageStore) (p q k k' : String)
    (kd : KeyUsageData) (h : q ≠ p) :
    getKey (setKey store p k kd) q k' = getKey store q k' := by
  simp [getKey, setKey, getAssoc_setAssoc_ne _ _ _ _ h]

theorem getKey_autoResetCounters (store : UsageStore) (p : String)
    (limits : ProviderLimits) (now : ℚ) :
    getKey (autoResetCounters store p limits now) p "0" =
      (getKey store p "0").map (resetSteps limits now) := by
  unfold autoResetCounters
  cases h : getKey store p "0" with
  | none => simp [h]
  | some kd => simp [h, getKey_setKey_self]

theorem getUsageStats_char (store : UsageStore) (p : String)
    (limits : ProviderLimits) (now : ℚ) :
    getUsageStats store p limits now =
      if p = "" then none
      else (getKey store p "0").map (fun kd => statsOf (resetSteps limits now kd) limits now) := by
  unfold getUsageStats
  by_cases hp : p = ""
  · simp [hp]
  · simp only [hp, if_false]
    rw [getKey_autoResetCounters]
    cases getKey store p "0" <;> simp

theorem shouldRotateProactively_char (store : UsageStore) (p : String)
    (limits : ProviderLimits) (now : ℚ) :
    shouldRotateProactively store p limits now =
      if p = "" then false
      else ((getKey store p "0").map
        (fun kd => rotateDecision (resetSteps limits now kd) limits now)).getD false := by
  unfold shouldRotateProactively
  by_cases hp : p = ""
  · simp [hp]
  · simp only [hp, if_false]
    rw [getKey_autoResetCounters]
    cases getKey store p "0" <;> simp

theorem code_utilization_eq_spec (u : ℚ) (l : Option ℚ) :
    (if qTruthy l then u / qVal l else 0) = utilizationSpec u l := by
  cases l with
  | none => simp [qTruthy, utilizationSpec]
  | some v =>
    by_cases hv : v = 0
    · simp [qTruthy, hv, utilizationSpec, qVal]
    · simp [qTruthy, hv, utilizationSpec, qVal]

/-- C1: for a provider that has recorded usage data (a `'0'` ledger record,
read after the automatic window resets the call performs) and any limits
object, `shouldRotateProactively` returns `true` iff the maximum of the
hourly, daily and monthly utilizations — each the usage in the trailing
window divided by the corresponding configured limit, `0` when the limit is
absent (division is exact rational division, with `q / 0 = 0`, which
coincides with the code returning `0` for a falsy limit) — is at least the
rotation threshold; the boundary case of equality yields `true`. -/
theorem shouldRotate_iff_max_utilization (store : UsageStore) (p : String)
    (limits : ProviderLimits) (now : ℚ) (kd : KeyUsageData)
    (hp : p ≠ "")
    (hkd : getKey (autoResetCounters store p limits now) p "0" = some kd) :
    shouldRotateProactively store p limits now = true ↔
      PROACTIVE_ROTATION_THRESHOLD ≤
        max (max (utilizationSpec (calculateUsageInWindow kd.usage now oneHourMs) limits.tokensPerHour)
                 (utilizationSpec (calculateUsageInWindow kd.usage now oneDayMs) limits.tokensPerDay))
            (utilizationSpec (calculateUsageInWindow kd.usage now thirtyDaysMs) limits.maxTokensTotal) := by
  unfold shouldRotateProactively
  simp only [if_neg hp, hkd, rotateDecision, code_utilization_eq_spec, decide_eq_true_eq]

def c1kd : KeyUsageData :=
  { usage := [{ timestamp := 1000, tokens := 850 }]
    lastDailyReset := some 1000
    lastMonthlyReset := some 1000
    lastHourlyReset := some 1000 }

def c1store : UsageStore := [("openai", [("0", c1kd)])]

def c1limits : ProviderLimits := { tokensPerDay := some 1000, maxTokensTotal := some 30000 }

/-- Witness for C1: with 850 tokens recorded against a daily limit of 1000
(utilization 0.85 ≥ 0.8) the rotation decision is `true`. -/
theorem shouldRotate_iff_max_utilization_witness :
    shouldRotateProactively c1store "openai" c1limits 1000 = true := by
  have hkd : getKey (autoResetCounters c1store "openai" c1limits 1000) "openai" "0" = some c1kd := by
    norm_num [autoResetCounters, getKey, getAssoc, setKey, setAssoc, c1store, c1kd, c1limits,
      resetSteps, dailyResetStep, monthlyResetStep, hourlyResetStep, qTruthy, qVal,
      oneDayMs, thirtyDaysMs, oneHourMs]
  refine (shouldRotate_iff_max_utilization c1store "openai" c1limits 1000 c1kd (by simp) hkd).mpr ?_
  norm_num [c1kd, c1limits, utilizationSpec, calculateUsageInWindow, oneHourMs, oneDayMs,
    thirtyDaysMs, PROACTIVE_ROTATION_THRESHOLD, max_def]

/-- C2 (amended): the proactive-rotation threshold defaults to 0.8 and is
always 0.8 — `shouldRotateProactively` never reads a `proactiveThreshold`
field from the provider's limits, so changing that field never changes the
decision. -/
theorem threshold_always_default (store : UsageStore) (p : String)
    (limits : ProviderLimits) (now : ℚ) (v : Option ℚ) :
    PROACTIVE_ROTATION_THRESHOLD = 0.8 ∧
    shouldRotateProactively store p { limits with proactiveThreshold := v } now =
      shouldRotateProactively store p limits now :=
  ⟨rfl, rfl⟩

def c2kd : KeyUsageData :=
  { usage := [{ timestamp := 1000, tokens := 850 }]
    lastDailyReset := some 1000
    lastMonthlyReset := some 1000
    lastHourlyReset := some 1000 }

def c2store : UsageStore := [("openai", [("0", c2kd)])]

def c2limits : ProviderLimits := { tokensPerDay := some 1000, proactiveThreshold := some (19/20) }

/-- C2 counterexample: with `proactiveThreshold = 0.95 ∈ (0,1]` in the limits
and a maximum utilization of 0.85, the claim predicts no rotation
(0.85 < 0.95), but the code returns `true` (it compares against the fixed
0.8 threshold). -/
theorem threshold_always_default_cex :
    (c2limits.proactiveThreshold = some (19/20) ∧ 0 < (19/20 : ℚ) ∧ (19/20 : ℚ) ≤ 1) ∧
    shouldRotateProactively c2store "openai" c2limits 1000 = true ∧
    (getUsageStats c2store "openai" c2limits 1000).map
        (fun s => max (max s.hourlyUtilization s.dailyUtilization) s.monthlyUtilization) =
      some (17/20) ∧
    ¬ ((19/20 : ℚ) ≤ 17/20) := by
  have hne : ("openai" : String) ≠ "" := by simp
  refine ⟨⟨rfl, by norm_num, by norm_num⟩, ?_, ?_, by norm_num⟩
  · norm_num [hne, shouldRotateProactively, autoResetCounters, getKey, getAssoc, setKey, setAssoc,
      c2store, c2kd, c2limits, resetSteps, dailyResetStep, monthlyResetStep, hourlyResetStep,
      qTruthy, qVal, oneDayMs, thirtyDaysMs, oneHourMs, rotateDecision, calculateUsageInWindow,
      PROACTIVE_ROTATION_THRESHOLD, max_def]
  · have h : getUsageStats c2store "openai" c2limits 1000 =
        some { hourlyUsage := 850, dailyUsage := 850, monthlyUsage := 850
               hourlyLimit := none, dailyLimit := some 1000, monthlyLimit := none
               hourlyUtilization := 0, dailyUtilization := 17/20, monthlyUtilization := 0 } := by
      norm_num [hne, getUsageStats, autoResetCounters, getKey, getAssoc, setKey, setAssoc,
        c2store, c2kd, c2limits, resetSteps, dailyResetStep, monthlyResetStep, hourlyResetStep,
        qTruthy, qVal, oneDayMs, thirtyDaysMs, oneHourMs, statsOf, calculateUsageInWindow]
    rw [h]
    norm_num [max_def]

def c3limits : ProviderLimits := { tokensPerDay := some 1000, maxTokensTotal := some 30000 }

/-- C3: behavior of the code at the claim's scenario — after recording 500
tokens and then calling `resetUsage`, `getUsageStats` does NOT return `null`:
the provider's ledger record is kept (with an emptied entry list), so a
zero-usage statistics object is returned. The claim (and the repository's
own test `'should reset usage data correctly'`, which asserts `null`) is
contradicted by the code. -/
theorem getUsageStats_after_reset_not_null :
    getUsageStats (resetUsage (recordUsage [] "openai" 500 1000) "openai" 2000)
        "openai" c3limits 2000 =
      some { hourlyUsage := 0, dailyUsage := 0, monthlyUsage := 0
             hourlyLimit := none, dailyLimit := some 1000, monthlyLimit := some 30000
             hourlyUtilization := 0, dailyUtilization := 0, monthlyUtilization := 0 } := by
  have hne : ("openai" : String) ≠ "" := by simp
  norm_num [hne, getUsageStats, resetUsage, recordUsage, autoResetCounters, getKey, getAssoc,
    setKey, setAssoc, c3limits, resetSteps, dailyResetStep, monthlyResetStep, hourlyResetStep,
    initializeResetTimestamps, qTruthy, qVal, oneDayMs, thirtyDaysMs, oneHourMs, statsOf,
    calculateUsageInWindow]

theorem dailyResetStep_falsy (limits : ProviderLimits) (now : ℚ) (kd : KeyUsageData)
    (h : qTruthy limits.tokensPerDay = false) : dailyResetStep limits now kd = kd := by
  simp [dailyResetStep, h]

/-- C4 (amended): each utilization in the derived statistics equals the
window's usage divided by its limit when the limit is present and nonzero
(the JavaScript truthiness test), and 0 otherwise; in particular when the
daily limit is absent or zero the daily utilization is 0 regardless of
recorded usage and that window never influences the rotation decision (the
decision equals the one taken with no daily limit configured at all). A
present-but-negative limit is divided by — yielding a nonzero value — rather
than read as 0. -/
theorem utilization_zero_or_absent_neutral (store : UsageStore) (p : String)
    (limits : ProviderLimits) (now : ℚ) :
    (∀ s, getUsageStats store p limits now = some s →
        s.hourlyUtilization = (if qTruthy limits.tokensPerHour then s.hourlyUsage / qVal limits.tokensPerHour else 0) ∧
        s.dailyUtilization = (if qTruthy limits.tokensPerDay then s.dailyUsage / qVal limits.tokensPerDay else 0) ∧
        s.monthlyUtilization = (if qTruthy limits.maxTokensTotal then s.monthlyUsage / qVal limits.maxTokensTotal else 0)) ∧
    (qTruthy limits.tokensPerDay = false →
      (∀ s, getUsageStats store p limits now = some s → s.dailyUtilization = 0) ∧
      shouldRotateProactively store p limits now =
        shouldRotateProactively store p { limits with tokensPerDay := none } now) := by
  have hutil : ∀ s, getUsageStats store p limits now = some s →
      s.hourlyUtilization = (if qTruthy limits.tokensPerHour then s.hourlyUsage / qVal limits.tokensPerHour else 0) ∧
      s.dailyUtilization = (if qTruthy limits.tokensPerDay then s.dailyUsage / qVal limits.tokensPerDay else 0) ∧
      s.monthlyUtilization = (if qTruthy limits.maxTokensTotal then s.monthlyUsage / qVal limits.maxTokensTotal else 0) := by
    intro s hs
    rw [getUsageStats_char] at hs
    by_cases hp : p = ""
    · simp [hp] at hs
    · simp only [hp, if_false, Option.map_eq_some'] at hs
      obtain ⟨kd, _, hskd⟩ := hs
      subst hskd
      refine ⟨?_, ?_, ?_⟩ <;> simp [statsOf]
  refine ⟨hutil, fun hday => ⟨fun s hs => ?_, ?_⟩⟩
  · rw [(hutil s hs).2.1, hday]
    simp
  · rw [shouldRotateProactively_char, shouldRotateProactively_char]
    by_cases hp : p = ""
    · simp [hp]
    · simp only [hp, if_false]
      have hrs : ∀ kd, resetSteps limits now kd =
          resetSteps { limits with tokensPerDay := none } now kd := by
        intro kd
        unfold resetSteps
        rw [dailyResetStep_falsy limits now kd hday,
          dailyResetStep_falsy { limits with tokensPerDay := none } now kd (by simp [qTruthy])]
        rfl
      have hdec : ∀ kd, rotateDecision kd limits now =
          rotateDecision kd { limits with tokensPerDay := none } now := by
        intro kd
        simp only [rotateDecision, hday]
        norm_num [qTruthy]
      cases getKey store p "0" with
      | none => simp
      | some kd => simp [hrs kd, hdec]

def c4kd : KeyUsageData :=
  { usage := [{ timestamp := 1000, tokens := 100 }]
    lastDailyReset := some 1000
    lastMonthlyReset := some 1000
    lastHourlyReset := some 1000 }

def c4store : UsageStore := [("openai", [("0", c4kd)])]

def c4limits : ProviderLimits := { tokensPerDay := some (-5) }

/-- C4 counterexample: with 100 tokens recorded and a present but negative
(hence not positive) daily limit of −5, the claim predicts a daily
utilization of 0, but the code divides: 100 / (−5) = −20 ≠ 0. -/
theorem utilization_zero_or_absent_neutral_cex :
    ((-5 : ℚ) < 0) ∧ (c4limits.tokensPerDay = some (-5)) ∧
    (getUsageStats c4store "openai" c4limits 1000).map (fun s => s.dailyUtilization) =
      some (-20) ∧ ((-20 : ℚ) ≠ 0) := by
  have hne : ("openai" : String) ≠ "" := by simp
  refine ⟨by norm_num, rfl, ?_, by norm_num⟩
  have h : getUsageStats c4store "openai" c4limits 1000 =
      some { hourlyUsage := 100, dailyUsage := 100, monthlyUsage := 100
             hourlyLimit := none, dailyLimit := some (-5), monthlyLimit := none
             hourlyUtilization := 0, dailyUtilization := -20, monthlyUtilization := 0 } := by
    norm_num [hne, getUsageStats, autoResetCounters, getKey, getAssoc, setKey, setAssoc,
      c4store, c4kd, c4limits, resetSteps, dailyResetStep, monthlyResetStep, hourlyResetStep,
      qTruthy, qVal, oneDayMs, thirtyDaysMs, oneHourMs, statsOf, calculateUsageInWindow]
  rw [h]
  rfl

def c4wkd : KeyUsageData :=
  { usage := [{ timestamp := 1000, tokens := 700 }]
    lastDailyReset := some 1000
    lastMonthlyReset := some 1000
    lastHourlyReset := some 1000 }

def c4wstore : UsageStore := [("openai", [("0", c4wkd)])]

def c4wlimits : ProviderLimits := { maxTokensTotal := some 1000 }

/-- Witness for C4: with no daily limit configured and 700 tokens recorded,
the daily utilization is 0. -/
theorem utilization_zero_or_absent_neutral_witness :
    qTruthy c4wlimits.tokensPerDay = false ∧
    (getUsageStats c4wstore "openai" c4wlimits 1000).map (fun s => s.dailyUtilization) =
      some 0 := by
  have hne : ("openai" : String) ≠ "" := by simp
  have h := (utilization_zero_or_absent_neutral c4wstore "openai" c4wlimits 1000).2 rfl
  refine ⟨rfl, ?_⟩
  have hs : getUsageStats c4wstore "openai" c4wlimits 1000 =
      some { hourlyUsage := 700, dailyUsage := 700, monthlyUsage := 700
             hourlyLimit := none, dailyLimit := none, monthlyLimit := some 1000
             hourlyUtilization := 0, dailyUtilization := 0, monthlyUtilization := 7/10 } := by
    norm_num [hne, getUsageStats, autoResetCounters, getKey, getAssoc, setKey, setAssoc,
      c4wstore, c4wkd, c4wlimits, resetSteps, dailyResetStep, monthlyResetStep, hourlyResetStep,
      qTruthy, qVal, oneDayMs, thirtyDaysMs, oneHourMs, statsOf, calculateUsageInWindow]
  rw [hs]
  simp [h.1 _ hs]

/-- C5 counterexample: an entry dated after `now` (timestamp 5, with
`now = 0`, window 100) lies outside the claimed closed interval
`[now − w, now]`, so the claim says it contributes nothing — but the code's
filter has no upper bound and counts its 10 tokens. -/
theorem calculateUsageInWindow_eq_spec_cex :
    calculateUsageInWindow [{ timestamp := 5, tokens := 10 }] 0 100 = 10 ∧
    usageInWindowSpec [{ timestamp := 5, tokens := 10 }] 0 100 = 0 ∧
    (10 : ℚ) ≠ 0 := by
  refine ⟨?_, ?_, by norm_num⟩ <;>
    norm_num [calculateUsageInWindow, usageInWindowSpec]

/-- C5 (amended): provided no entry is dated after `now` (which holds for
ledgers built by `recordUsage`, which stamps the current time), the windowed
usage sum equals the sum of the tokens of exactly those entries with
`timestamp ∈ [now − w, now]`; entries older than `now − w` contribute
nothing. Without that proviso the code also counts future-dated entries,
since its filter only checks the lower bound. -/
theorem calculateUsageInWindow_eq_spec (usage : List TokenUsageEntry) (now windowMs : ℚ)
    (h : ∀ e ∈ usage, e.timestamp ≤ now) :
    calculateUsageInWindow usage now windowMs = usageInWindowSpec usage now windowMs := by
  unfold calculateUsageInWindow usageInWindowSpec
  have hf : usage.filter (fun e => decide (now - windowMs ≤ e.timestamp)) =
      usage.filter (fun e => decide (now - windowMs ≤ e.timestamp) &&
        decide (e.timestamp ≤ now)) := by
    apply List.filter_congr
    intro e he
    rw [decide_eq_true (h e he), Bool.and_true]
  rw [hf]

def c5list : List TokenUsageEntry :=
  [{ timestamp := -200, tokens := 3 }, { timestamp := -50, tokens := 7 },
   { timestamp := 0, tokens := 5 }]

/-- Witness for C5: three entries, one older than the window; the code's sum
and the interval sum agree at 12. -/
theorem calculateUsageInWindow_eq_spec_witness :
    calculateUsageInWindow c5list 0 100 = usageInWindowSpec c5list 0 100 ∧
    calculateUsageInWindow c5list 0 100 = 12 := by
  constructor
  · refine calculateUsageInWindow_eq_spec c5list 0 100 ?_
    intro e he
    simp only [c5list, List.mem_cons, List.not_mem_nil, or_false] at he
    rcases he with h | h | h <;> subst h <;> norm_num
  · norm_num [calculateUsageInWindow, c5list]

/-- C6: `recordUsage` is total (it never throws) and is a no-op on invalid
input — a falsy (empty) provider name or a negative token count
(`NaN`/`Infinity`, the other invalid counts, are not representable in the
rational model) — leaving the stored usage data unchanged; on valid input it
appends exactly one entry carrying the given token count to that provider's
`'0'` ledger. -/
theorem recordUsage_validates_and_appends (store : UsageStore) (p : String) (tokens now : ℚ) :
    ((p = "" ∨ tokens < 0) → recordUsage store p tokens now = store) ∧
    (p ≠ "" → 0 ≤ tokens →
      ∃ kd, getKey (recordUsage store p tokens now) p "0" = some kd ∧
        kd.usage = (((getKey store p "0").map KeyUsageData.usage).getD []) ++
          [{ timestamp := now, tokens := tokens }]) := by
  constructor
  · rintro (hp | ht)
    · simp [recordUsage, hp]
    · unfold recordUsage
      by_cases hp : p = ""
      · simp [hp]
      · simp [hp, ht]
  · intro hp ht
    simp only [recordUsage, if_neg hp, if_neg (not_lt.mpr ht)]
    refine ⟨_, getKey_setKey_self _ _ _ _, ?_⟩
    cases hkd : getKey store p "0" <;> simp [hkd, initializeResetTimestamps]

/-- Witness for C6: an empty provider name is a no-op; a valid call on the
empty store yields a singleton ledger with the recorded entry. -/
theorem recordUsage_validates_and_appends_witness :
    recordUsage [] "" 100 0 = [] ∧
    ∃ kd, getKey (recordUsage [] "openai" 100 0) "openai" "0" = some kd ∧
      kd.usage = [{ timestamp := 0, tokens := 100 }] := by
  constructor
  · exact (recordUsage_validates_and_appends [] "" 100 0).1 (Or.inl rfl)
  · obtain ⟨kd, h1, h2⟩ :=
      (recordUsage_validates_and_appends [] "openai" 100 0).2 (by simp) (by norm_num)
    refine ⟨kd, h1, ?_⟩
    rw [h2]
    rfl

theorem advanceIter_apiKeys_and_index (s : RotationState) (h0 : s.currentKeyIndex = 0)
    (k : Nat) :
    (advanceIter s k).apiKeys = s.apiKeys ∧
    (advanceIter s k).currentKeyIndex = min k (s.apiKeys.length - 1) := by
  induction k with
  | zero => simp [advanceIter, h0]
  | succ n ih =>
    obtain ⟨hkeys, hidx⟩ := ih
    unfold advanceIter advance
    by_cases h : (advanceIter s n).currentKeyIndex + 1 < (advanceIter s n).apiKeys.length
    · rw [if_pos h]
      refine ⟨hkeys, ?_⟩
      rw [hkeys, hidx] at h
      simp only [hidx, hkeys]
      omega
    · rw [if_neg h]
      refine ⟨hkeys, ?_⟩
      rw [hkeys, hidx] at h
      rw [hidx]
      omega

/-- C7: the rotation controller never wraps around. Starting from key index
0 with N keys: for every `k` with `k + 1 < N` the `(k+1)`-st `advance` call
succeeds and moves the index from `k` to `k + 1` (so exactly `N − 1`
successive calls succeed); after those `N − 1` successes the next call
reports exhausted and leaves the index unchanged at `N − 1`; and a provider
with zero or one keys always reports failure with its index unchanged. -/
theorem rotation_non_wrapping (s : RotationState) (h0 : s.currentKeyIndex = 0) :
    (∀ k, k + 1 < s.apiKeys.length →
        (advanceIter s k).currentKeyIndex = k ∧
        (advance (advanceIter s k)).1 = true ∧
        (advanceIter s (k + 1)).currentKeyIndex = k + 1) ∧
    (1 ≤ s.apiKeys.length →
        (advance (advanceIter s (s.apiKeys.length - 1))).1 = false ∧
        (advance (advanceIter s (s.apiKeys.length - 1))).2 =
          advanceIter s (s.apiKeys.length - 1) ∧
        (advanceIter s (s.apiKeys.length - 1)).currentKeyIndex = s.apiKeys.length - 1) ∧
    (s.apiKeys.length ≤ 1 → advance s = (false, s)) := by
  refine ⟨?_, ?_, ?_⟩
  · intro k hk
    obtain ⟨hkeys, hidx⟩ := advanceIter_apiKeys_and_index s h0 k
    obtain ⟨hkeys', hidx'⟩ := advanceIter_apiKeys_and_index s h0 (k + 1)
    have hik : (advanceIter s k).currentKeyIndex = k := by rw [hidx]; omega
    refine ⟨hik, ?_, by rw [hidx']; omega⟩
    unfold advance
    rw [if_pos (by rw [hik, hkeys]; omega)]
  · intro hn
    obtain ⟨hkeys, hidx⟩ := advanceIter_apiKeys_and_index s h0 (s.apiKeys.length - 1)
    have hik : (advanceIter s (s.apiKeys.length - 1)).currentKeyIndex =
        s.apiKeys.length - 1 := by rw [hidx]; omega
    have hcond : ¬ ((advanceIter s (s.apiKeys.length - 1)).currentKeyIndex + 1 <
        (advanceIter s (s.apiKeys.length - 1)).apiKeys.length) := by
      rw [hik, hkeys]; omega
    unfold advance
    rw [if_neg hcond]
    exact ⟨rfl, rfl, hik⟩
  · intro hn
    unfold advance
    rw [if_neg (by rw [h0]; omega)]

/-- Witness for C7: with three keys, the first two calls succeed (index 1
after one call), and the third call reports exhausted at index 2. -/
theorem rotation_non_wrapping_witness :
    (advanceIter { apiKeys := ["k1", "k2", "k3"], currentKeyIndex := 0 } 1).currentKeyIndex = 1 ∧
    (advance (advanceIter { apiKeys := ["k1", "k2", "k3"], currentKeyIndex := 0 } 2)).1 = false ∧
    advance { apiKeys := ["solo"], currentKeyIndex := 0 } =
      (false, { apiKeys := ["solo"], currentKeyIndex := 0 }) := by
  have h := rotation_non_wrapping { apiKeys := ["k1", "k2", "k3"], currentKeyIndex := 0 } rfl
  have h1 := rotation_non_wrapping { apiKeys := ["solo"], currentKeyIndex := 0 } rfl
  exact ⟨(h.1 0 (by norm_num)).2.2, (h.2.1 (by norm_num)).1, h1.2.2 (by norm_num)⟩

theorem getKey_recordUsage_other (store : UsageStore) (a b : String) (tokens now : ℚ)
    (k : String) (hba : b ≠ a) :
    getKey (recordUsage store a tokens now) b k = getKey store b k := by
  unfold recordUsage
  by_cases ha : a = ""
  · simp [ha]
  · by_cases ht : tokens < 0
    · simp [ha, ht]
    · simp only [if_neg ha, if_neg ht]
      exact getKey_setKey_ne_provider _ _ _ _ _ _ hba

/-- C9: providers are independent — for distinct providers `a ≠ b` and any
limits object, recording usage for `a` changes neither `getUsageStats` nor
`shouldRotateProactively` for `b`. -/
theorem provider_independence (store : UsageStore) (a b : String)
    (limits : ProviderLimits) (tokens now : ℚ) (hab : a ≠ b) :
    getUsageStats (recordUsage store a tokens now) b limits now =
      getUsageStats store b limits now ∧
    shouldRotateProactively (recordUsage store a tokens now) b limits now =
      shouldRotateProactively store b limits now := by
  have hkey := getKey_recordUsage_other store a b tokens now "0" (Ne.symm hab)
  constructor
  · rw [getUsageStats_char, getUsageStats_char, hkey]
  · rw [shouldRotateProactively_char, shouldRotateProactively_char, hkey]

def c9kd : KeyUsageData :=
  { usage := [{ timestamp := 1000, tokens := 300 }]
    lastDailyReset := some 1000
    lastMonthlyReset := some 1000
    lastHourlyReset := some 1000 }

def c9store : UsageStore := [("anthropic", [("0", c9kd)])]

def c9limits : ProviderLimits := { tokensPerDay := some 1000 }

/-- Witness for C9: recording 100 tokens for openai leaves anthropic's stats
and rotation decision unchanged. -/
theorem provider_independence_witness :
    getUsageStats (recordUsage c9store "openai" 100 1000) "anthropic" c9limits 1000 =
      getUsageStats c9store "anthropic" c9limits 1000 ∧
    shouldRotateProactively (recordUsage c9store "openai" 100 1000) "anthropic" c9limits 1000 =
      shouldRotateProactively c9store "anthropic" c9limits 1000 :=
  provider_independence c9store "openai" "anthropic" c9limits 100 1000 (by simp)

/-- C10: `clearAllUsage` removes the entire persisted usage store, so
afterwards (with no intervening `recordUsage`) `getUsageStats` returns
`null` for every provider and every limits object — unlike `resetUsage`,
which keeps the provider's ledger record in place with an emptied entry
list and fresh reset timestamps. -/
theorem clearAll_removes_store_reset_keeps_record (store : UsageStore) (p q : String)
    (limits : ProviderLimits) (now now2 : ℚ)
    (hq : q ≠ "") (hqd : (getKey store q "0").isSome) :
    clearAllUsage store = [] ∧
    getUsageStats (clearAllUsage store) p limits now = none ∧
    getKey (resetUsage store q now2) q "0" =
      some { usage := [], lastDailyReset := some now2
             lastMonthlyReset := some now2, lastHourlyReset := some now2 } := by
  refine ⟨rfl, ?_, ?_⟩
  · rw [getUsageStats_char]
    by_cases hp : p = "" <;> simp [hp, clearAllUsage, getKey, getAssoc]
  · unfold resetUsage
    rw [if_neg hq]
    obtain ⟨kd, hkd⟩ := Option.isSome_iff_exists.mp hqd
    simp only [hkd]
    exact getKey_setKey_self _ _ _ _

def c10kd : KeyUsageData :=
  { usage := [{ timestamp := 1000, tokens := 500 }]
    lastDailyReset := some 1000
    lastMonthlyReset := some 1000
    lastHourlyReset := some 1000 }

def c10store : UsageStore := [("openai", [("0", c10kd)])]

def c10limits : ProviderLimits := { tokensPerDay := some 1000 }

/-- Witness for C10: after clearing, openai's stats are `none`; after a
reset instead, openai's ledger record remains with an empty entry list and
reset timestamps equal to the reset time. -/
theorem clearAll_removes_store_reset_keeps_record_witness :
    getUsageStats (clearAllUsage c10store) "openai" c10limits 2000 = none ∧
    getKey (resetUsage c10store "openai" 2000) "openai" "0" =
      some { usage := [], lastDailyReset := some 2000
             lastMonthlyReset := some 2000, lastHourlyReset := some 2000 } := by
  have h := clearAll_removes_store_reset_keeps_record c10store "openai" "openai"
    c10limits 2000 2000 (by simp) (by simp [c10store, getKey, getAssoc])
  exact ⟨h.2.1, h.2.2⟩

/-- JSON values, for modelling the persisted payload at the AST level
(`JSON.parse` / `JSON.stringify` are platform functions, not repository
code; a parse failure is represented by `StoredPayload.malformed`). -/
inductive Json where
  | null : Json
  | bool (b : Bool) : Json
  | num (q : ℚ) : Json
  | str (s : String) : Json
  | arr (elems : List Json) : Json
  | obj (fields : List (String × Json)) : Json

/-- Outcome of reading the stored payload and running `JSON.parse` on it. -/
inductive StoredPayload where
  | emptyText : StoredPayload
  | malformed : StoredPayload
  | parsed (j : Json) : StoredPayload

/-- JavaScript truthiness of a parsed JSON value. -/
def jsTruthy : Json → Bool
  | .null => false
  | .bool b => b
  | .num q => q != 0
  | .str s => s != ""
  | .arr _ => true
  | .obj _ => true

/-- Whether `typeof x === 'object'` holds for a parsed JSON value
(`null` and arrays included, as in JavaScript). -/
def jsTypeofObject : Json → Bool
  | .null => true
  | .arr _ => true
  | .obj _ => true
  | _ => false

/-- `loadUsageData` from `tokenUsageTracker.ts` at the payload level: an
empty/whitespace-only payload returns `{}`; a `JSON.parse` failure is caught
and returns `{}`; a parsed value that is falsy or not of object type returns
`{}`; otherwise the parsed value is returned. The function is total: no
input raises. -/
def loadUsageData : StoredPayload → Json
  | .emptyText => .obj []
  | .malformed => .obj []
  | .parsed j => if jsTruthy j && jsTypeofObject j then j else .obj []

/-- `JSON.stringify` shape of one usage entry. -/
def encodeEntry (e : TokenUsageEntry) : Json :=
  .obj [("timestamp", .num e.timestamp), ("tokens", .num e.tokens)]

/-- An optional numeric field: omitted when `undefined`, as `JSON.stringify`
omits it. -/
def optNumField (name : String) : Option ℚ → List (String × Json)
  | none => []
  | some q => [(name, .num q)]

/-- `JSON.stringify` shape of one `KeyUsageData` record. -/
def encodeKeyData (kd : KeyUsageData) : Json :=
  .obj (("usage", .arr (kd.usage.map encodeEntry)) ::
    (optNumField "lastDailyReset" kd.lastDailyReset ++
     optNumField "lastMonthlyReset" kd.lastMonthlyReset ++
     optNumField "lastHourlyReset" kd.lastHourlyReset))

/-- `JSON.stringify` shape of one provider's keyed records. -/
def encodeProviderData (pd : ProviderData) : Json :=
  .obj (pd.map (fun kv => (kv.1, encodeKeyData kv.2)))

/-- `saveUsageData` serialization: the `JSON.stringify` shape of the store
(spec §6 layout). -/
def encodeStore (store : UsageStore) : Json :=
  .obj (store.map (fun kv => (kv.1, encodeProviderData kv.2)))

/-- Reads one usage entry back from its JSON form (the shape the rest of
the tracker reads: `entry.timestamp`, `entry.tokens`). -/
def decodeEntry : Json → Option TokenUsageEntry
  | .obj fields =>
      match getAssoc fields "timestamp", getAssoc fields "tokens" with
      | some (.num t), some (.num k) => some { timestamp := t, tokens := k }
      | _, _ => none
  | _ => none

def decodeEntryList : List Json → Option (List TokenUsageEntry)
  | [] => some []
  | j :: rest =>
      match decodeEntry j, decodeEntryList rest with
      | some e, some es => some (e :: es)
      | _, _ => none

def decodeOptNum : Option Json → Option (Option ℚ)
  | none => some none
  | some (.num q) => some (some q)
  | some _ => none

/-- Reads one `KeyUsageData` record back from its JSON form. -/
def decodeKeyData : Json → Option KeyUsageData
  | .obj fields =>
      match getAssoc fields "usage" with
      | some (.arr js) =>
          match decodeEntryList js, decodeOptNum (getAssoc fields "lastDailyReset"),
              decodeOptNum (getAssoc fields "lastMonthlyReset"),
              decodeOptNum (getAssoc fields "lastHourlyReset") with
          | some us, some d, some m, some h =>
              some { usage := us, lastDailyReset := d, lastMonthlyReset := m, lastHourlyReset := h }
          | _, _, _, _ => none
      | _ => none
  | _ => none

def decodeKeyDataList : List (String × Json) → Option ProviderData
  | [] => some []
  | (k, j) :: rest =>
      match decodeKeyData j, decodeKeyDataList rest with
      | some kd, some pds => some ((k, kd) :: pds)
      | _, _ => none

def decodeProviderData : Json → Option ProviderData
  | .obj fields => decodeKeyDataList fields
  | _ => none

def decodeProviderList : List (String × Json) → Option UsageStore
  | [] => some []
  | (p, j) :: rest =>
      match decodeProviderData j, decodeProviderList rest with
      | some pd, some store => some ((p, pd) :: store)
      | _, _ => none

/-- Reads the whole store back from its JSON form. -/
def decodeStore : Json → Option UsageStore
  | .obj fields => decodeProviderList fields
  | _ => none

theorem decodeEntry_encode (e : TokenUsageEntry) : decodeEntry (encodeEntry e) = some e := by
  cases e
  simp [decodeEntry, encodeEntry, getAssoc]

theorem decodeEntryList_map (l : List TokenUsageEntry) :
    decodeEntryList (l.map encodeEntry) = some l := by
  induction l with
  | nil => rfl
  | cons e rest ih => simp [decodeEntryList, decodeEntry_encode, ih]

theorem decodeKeyData_encode (kd : KeyUsageData) :
    decodeKeyData (encodeKeyData kd) = some kd := by
  obtain ⟨us, d, m, h⟩ := kd
  cases d <;> cases m <;> cases h <;>
    simp [encodeKeyData, decodeKeyData, optNumField, getAssoc, decodeOptNum,
      decodeEntryList_map]

theorem decodeKeyDataList_map (pd : ProviderData) :
    decodeKeyDataList (pd.map (fun kv => (kv.1, encodeKeyData kv.2))) = some pd := by
  induction pd with
  | nil => rfl
  | cons kv rest ih =>
    obtain ⟨k, kd⟩ := kv
    simp [decodeKeyDataList, decodeKeyData_encode, ih]

theorem decodeProviderData_encode (pd : ProviderData) :
    decodeProviderData (encodeProviderData pd) = some pd := by
  simp [decodeProviderData, encodeProviderData, decodeKeyDataList_map]

theorem decodeProviderList_map (s : UsageStore) :
    decodeProviderList (s.map (fun kv => (kv.1, encodeProviderData kv.2))) = some s := by
  induction s with
  | nil => rfl
  | cons kv rest ih =>
    obtain ⟨p, pd⟩ := kv
    simp [decodeProviderList, decodeProviderData_encode, ih]

theorem decodeStore_encodeStore (s : UsageStore) :
    decodeStore (encodeStore s) = some s := by
  simp [decodeStore, encodeStore, decodeProviderList_map]

/-- C8: loading the persisted usage store never raises (it is total): an
empty payload, a `JSON.parse` failure, a falsy parsed value and a parsed
value that is not of object type all degrade to the empty store (no
providers); and every well-formed store round-trips through serialize then
deserialize without loss, yielding identical windowed usage results for
every provider and window. -/
theorem load_degrades_and_roundtrips (s : UsageStore) (j : Json) :
    loadUsageData .emptyText = .obj [] ∧
    loadUsageData .malformed = .obj [] ∧
    (jsTypeofObject j = false → loadUsageData (.parsed j) = .obj []) ∧
    (jsTruthy j = false → loadUsageData (.parsed j) = .obj []) ∧
    decodeStore (encodeStore s) = some s ∧
    (∀ s', decodeStore (encodeStore s) = some s' →
      ∀ p now w, ((getKey s' p "0").map (fun kd => calculateUsageInWindow kd.usage now w)) =
        ((getKey s p "0").map (fun kd => calculateUsageInWindow kd.usage now w))) := by
  refine ⟨rfl, rfl, ?_, ?_, decodeStore_encodeStore s, ?_⟩
  · intro h
    simp [loadUsageData, h]
  · intro h
    simp [loadUsageData, h]
  · intro s' hs'
    rw [decodeStore_encodeStore s] at hs'
    injection hs' with hss
    subst hss
    intro p now w
    rfl

def c8kd : KeyUsageData :=
  { usage := [{ timestamp := 1, tokens := 2 }]
    lastDailyReset := some 1
    lastMonthlyReset := none
    lastHourlyReset := some 1 }

def c8store : UsageStore := [("openai", [("0", c8kd)])]

/-- Witness for C8: a numeric payload (not an object) loads as the empty
store, and a one-provider store with an optional field omitted survives the
round trip. -/
theorem load_degrades_and_roundtrips_witness :
    jsTypeofObject (Json.num 5) = false ∧
    loadUsageData (.parsed (Json.num 5)) = .obj [] ∧
    decodeStore (encodeStore c8store) = some c8store := by
  have h := load_degrades_and_roundtrips c8store (Json.num 5)
  exact ⟨rfl, h.2.2.1 rfl, h.2.2.2.2.1⟩
